import Mathlib

set_option maxRecDepth 100000

/-!
Shallow embedding of `scripts/scrape_with_scrapling.py`.

The script is a CLI wrapper: an import guard around the external fetching
library, argument parsing, one fetch, title / selector / preview extraction,
and a single JSON object printed to standard output together with an exit
code.  Python strings are embedded as `List Char`; Python exceptions as
`Except (List Char)`; the external library (`scrapling.fetchers.Fetcher`)
and the parsed-argument outcome are parameters of the run function.
-/

namespace Scrape

/-- A node returned by a selector query.  Reading its `text` attribute may
raise, which the script's inner `try` swallows for the title and which
propagates for `items`. -/
structure ExNode where
  textRead : Except (List Char) (List Char)

/-- The document handle returned by `Fetcher(...).get(url)`: a selector
query `css` (which may raise, e.g. on selector syntax errors) and the
whole-document plain-text accessor `text` (`none` models a falsy value,
which `page.text or ""` turns into the empty string). -/
structure Page where
  css : List Char → Except (List Char) (List ExNode)
  text : Option (List Char)

/-- The environment of one invocation: whether
`from scrapling.fetchers import Fetcher` succeeds, and the behaviour of
`Fetcher(timeout=t).get(url)`. -/
structure World where
  capability : Except (List Char) Unit
  fetch : Int → List Char → Except (List Char) Page

/-- The three command-line arguments after successful parsing:
positional `url`, optional `--selector` (default `None`), and
`--timeout` (int, default 20). -/
structure Args where
  url : List Char
  selector : Option (List Char)
  timeout : Int

/-- JSON values appearing in the script's output object. -/
inductive JVal where
  | str : List Char → JVal
  | num : Nat → JVal
  | bool : Bool → JVal
  | null : JVal
  | arr : List JVal → JVal

/-- The printed JSON object, as its ordered field list (Python dicts keep
insertion order). -/
abbrev Payload := List (String × JVal)

/-- Python `str.strip()`: drop whitespace from both ends. -/
def pyStrip (l : List Char) : List Char :=
  (l.dropWhile Char.isWhitespace).rdropWhile Char.isWhitespace

/-- Python truthiness of `args.selector` (`None` and `""` are falsy). -/
def selTruthy : Option (List Char) → Bool
  | none => false
  | some [] => false
  | some (_ :: _) => true

/-- The list comprehension `[n.text.strip() for n in ...]` reads texts left
to right and propagates the first exception. -/
def mapExcept (f : α → Except ε β) : List α → Except ε (List β)
  | [] => .ok []
  | a :: as =>
    match f a with
    | .error e => .error e
    | .ok b =>
      match mapExcept f as with
      | .error e => .error e
      | .ok bs => .ok (b :: bs)

/-- Lines 23-27: the inner `try` around the title lookup.  Any failure of
the query or of the text read yields `None`; an empty match list (falsy
`len(title_nodes)`) also yields `None`. -/
def extractTitle (page : Page) : Option (List Char) :=
  match page.css "title".data with
  | .error _ => none
  | .ok [] => none
  | .ok (n :: _) =>
    match n.textRead with
    | .ok t => some t
    | .error _ => none

/-- The JSON encoding of the optional title. -/
def jsonOfTitle : Option (List Char) → JVal
  | some t => JVal.str t
  | none => JVal.null

/-- Lines 36-39: `nodes = page.css(args.selector)` followed by the
`selector`, `count` and `items` fields; `items` takes the first 20 nodes
and strips each node's text. -/
def selectorBranch (page : Page) (sel : List Char) : Except (List Char) Payload :=
  match page.css sel with
  | .error e => .error e
  | .ok nodes =>
    match mapExcept ExNode.textRead (nodes.take 20) with
    | .error e => .error e
    | .ok texts =>
      .ok [("selector", .str sel), ("count", .num nodes.length),
           ("items", .arr (texts.map fun t => JVal.str (pyStrip t)))]

/-- Lines 41-42: `text = page.text or ""` and
`payload["text_preview"] = text.strip()[:1000]`. -/
def previewBranch (page : Page) : Payload :=
  [("text_preview", JVal.str ((pyStrip (page.text.getD [])).take 1000))]

/-- Lines 20-45: the body of the outer `try` in `main`, producing the
success payload or the first uncaught exception. -/
def tryMain (w : World) (a : Args) : Except (List Char) Payload :=
  match w.fetch a.timeout a.url with
  | .error e => .error e
  | .ok page =>
    let base : Payload :=
      [("ok", JVal.bool true), ("url", JVal.str a.url),
       ("title", jsonOfTitle (extractTitle page))]
    if selTruthy a.selector then
      match selectorBranch page (a.selector.getD []) with
      | .error e => .error e
      | .ok tail => .ok (base ++ tail)
    else
      .ok (base ++ previewBranch page)

/-- `main` after argument parsing: print the success payload and return 0,
or print the `{"ok": false, "error": ..., "url": ...}` object and return 1
(lines 44-48). -/
def runMain (w : World) (a : Args) : Payload × Nat :=
  match tryMain w a with
  | .ok payload => (payload, 0)
  | .error e => ([("ok", JVal.bool false), ("error", JVal.str e), ("url", JVal.str a.url)], 1)

/-- The JSON printed by the import guard (lines 8-10). -/
def importFailPayload (e : List Char) : Payload :=
  [("ok", JVal.bool false), ("error", JVal.str ("scrapling_import_failed: ".data ++ e))]

/-- What one invocation leaves behind: the JSON object on standard output,
if any, and the process exit code. -/
structure RunResult where
  stdout : Option Payload
  exitCode : Nat

/-- One whole invocation.  `parse` is the outcome of
`parser.parse_args()`: `.ok` with the parsed arguments, or `.error ()`
when argparse rejects the command line, in which case argparse prints
usage to standard error (nothing on standard output) and exits with
code 2 — modelled here from argparse's documented behaviour since the
library is outside this repository.  The import guard runs first, at
module import time. -/
def runScript (w : World) (parse : Except Unit Args) : RunResult :=
  match w.capability with
  | .error e => ⟨some (importFailPayload e), 2⟩
  | .ok _ =>
    match parse with
    | .error _ => ⟨none, 2⟩
    | .ok a => ⟨some (runMain w a).1, (runMain w a).2⟩

/-- Look a key up in the ordered field list (first occurrence, as JSON
readers of the printed dict would). -/
def lookupKey : Payload → String → Option JVal
  | [], _ => none
  | (k, v) :: rest, key => if k = key then some v else lookupKey rest key

/-- The value of field `k` in the invocation's printed JSON object, when
one was printed and has the field. -/
def outKey (r : RunResult) (k : String) : Option JVal :=
  match r.stdout with
  | none => none
  | some p => lookupKey p k

/-! Concrete invocations used to instantiate the theorems below. -/

/-- A node whose text reads successfully. -/
def exampleNode : ExNode := ⟨.ok "Example Domain".data⟩

/-- A page on which every query matches one readable node. -/
def examplePage : Page :=
  { css := fun _ => .ok [exampleNode], text := some "  Example text  ".data }

/-- Capability available, fetch succeeds with `examplePage`. -/
def goodWorld : World := ⟨.ok (), fun _ _ => .ok examplePage⟩

/-- Capability available, fetch raises with a non-empty message. -/
def netFailWorld : World := ⟨.ok (), fun _ _ => .error "connection refused".data⟩

/-- Capability available, fetch raises an exception whose message is empty
(Python `str(e)` of a bare exception). -/
def emptyErrWorld : World := ⟨.ok (), fun _ _ => .error []⟩

/-- The import of the fetching library fails. -/
def badCapWorld : World := ⟨.error "No module named scrapling".data, fun _ _ => .error []⟩

/-- `url` only, no selector. -/
def baseArgs : Args := ⟨"https://example.com".data, none, 20⟩

/-- `--selector h1`. -/
def selArgs : Args := ⟨"https://example.com".data, some "h1".data, 20⟩

/-- `--selector ""` (supplied but empty). -/
def emptySelArgs : Args := ⟨"https://example.com".data, some [], 20⟩

/-- A page with no title match and a 1002-character plain text whose
1000th character is a space. -/
def truncPage : Page :=
  { css := fun _ => .ok [],
    text := some (List.replicate 999 'a' ++ ' ' :: ['b', 'b']) }

/-- Capability available, fetch succeeds with `truncPage`. -/
def truncWorld : World := ⟨.ok (), fun _ _ => .ok truncPage⟩

/-- A page whose title node raises when its text is read. -/
def titleFailPage : Page :=
  { css := fun _ => .ok [⟨.error "boom".data⟩], text := some "hello".data }

/-- Capability available, fetch succeeds with `titleFailPage`. -/
def titleFailWorld : World := ⟨.ok (), fun _ _ => .ok titleFailPage⟩

/-- A page whose title node raises when its text is read AND whose query
for any other selector raises. -/
def selFailPage : Page :=
  { css := fun s =>
      if s = "title".data then .ok [⟨.error "boom".data⟩]
      else .error "bad selector".data,
    text := some "hello".data }

/-- Capability available, fetch succeeds with `selFailPage`. -/
def selFailWorld : World := ⟨.ok (), fun _ _ => .ok selFailPage⟩

example :
    runScript goodWorld (.ok baseArgs) =
      ⟨some [("ok", .bool true), ("url", .str "https://example.com".data),
             ("title", .str "Example Domain".data),
             ("text_preview", .str "Example text".data)], 0⟩ := rfl

example :
    runScript goodWorld (.ok selArgs) =
      ⟨some [("ok", .bool true), ("url", .str "https://example.com".data),
             ("title", .str "Example Domain".data),
             ("selector", .str "h1".data), ("count", .num 1),
             ("items", .arr [.str "Example Domain".data])], 0⟩ := rfl

example :
    outKey (runScript truncWorld (.ok baseArgs)) "text_preview" =
      some (.str (List.replicate 999 'a' ++ [' '])) := rfl

/-- A page matching 25 readable nodes, to exercise the 20-item cap. -/
def manyPage : Page :=
  { css := fun _ => .ok (List.replicate 25 exampleNode), text := some [] }

/-- Capability available, fetch succeeds with `manyPage`. -/
def manyWorld : World := ⟨.ok (), fun _ _ => .ok manyPage⟩

/-! Helper lemmas. -/

/-- `mapExcept` succeeds with as many results as inputs. -/
theorem mapExcept_ok_length {α β ε : Type} {f : α → Except ε β} :
    ∀ {l : List α} {ys : List β}, mapExcept f l = .ok ys → ys.length = l.length := by
  intro l
  induction l with
  | nil =>
    intro ys h
    simp only [mapExcept] at h
    cases h
    rfl
  | cons a t ih =>
    intro ys h
    simp only [mapExcept] at h
    cases hfa : f a with
    | error e => rw [hfa] at h; cases h
    | ok b =>
      rw [hfa] at h
      cases hrec : mapExcept f t with
      | error e => rw [hrec] at h; cases h
      | ok bs =>
        rw [hrec] at h
        cases h
        simp [ih hrec]

/-- The head of `dropWhile p` does not satisfy `p`. -/
theorem head?_dropWhile_false {p : Char → Bool} {c : Char} :
    ∀ {l : List Char}, (l.dropWhile p).head? = some c → p c = false := by
  intro l
  induction l with
  | nil => intro h; simp at h
  | cons a t ih =>
    intro h
    rw [List.dropWhile_cons] at h
    cases hpa : p a with
    | true => rw [hpa] at h; simp at h; exact ih h
    | false =>
      rw [hpa] at h
      simp at h
      rw [← h]
      exact hpa

/-- `rdropWhile` only removes elements from the tail, so a non-empty
result keeps the original head. -/
theorem head?_rdropWhile {p : Char → Bool} {l : List Char} {c : Char}
    (h : (l.rdropWhile p).head? = some c) : l.head? = some c := by
  obtain ⟨t, ht⟩ := List.rdropWhile_prefix p l
  rw [← ht]
  cases hr : l.rdropWhile p with
  | nil => rw [hr] at h; simp at h
  | cons a s => rw [hr] at h; simpa using h

/-- A non-empty `take` keeps the original head. -/
theorem head?_take {n : Nat} {l : List Char} {c : Char}
    (h : (l.take n).head? = some c) : l.head? = some c := by
  cases n with
  | zero => simp at h
  | succ m =>
    cases l with
    | nil => simp at h
    | cons a t => simpa using h

/-- The head of a stripped string is not whitespace. -/
theorem head?_pyStrip_not_ws {l : List Char} {c : Char}
    (h : (pyStrip l).head? = some c) : c.isWhitespace = false :=
  head?_dropWhile_false (head?_rdropWhile h)

/-! The claims. -/

/-- C1 (counterexample): when the capability loads but argument parsing
fails, argparse writes usage to standard error and exits 2 — no JSON
object reaches standard output, so not every failure path emits JSON. -/
theorem C1_counterexample :
    (runScript goodWorld (.error ())).stdout = none ∧
    (runScript goodWorld (.error ())).exitCode = 2 := ⟨rfl, rfl⟩

/-- C1 (amended): the invocation prints no JSON object exactly when the
capability loaded and argument parsing failed; every other path — import
failure, fetch or extraction error, success — prints one. -/
theorem C1_json_exactly_when (w : World) (p : Except Unit Args) :
    (runScript w p).stdout = none ↔
      w.capability = Except.ok () ∧ p = Except.error () := by
  cases hc : w.capability with
  | error e => simp [runScript, hc]
  | ok u =>
    cases u
    cases p with
    | error v => cases v; simp [runScript, hc]
    | ok a => simp [runScript, hc]

/-- C2 (counterexample): exit code 2 is not reserved for capability
failure — an invocation whose capability loaded fine but whose command
line argparse rejects also exits with code 2. -/
theorem C2_counterexample :
    goodWorld.capability = Except.ok () ∧
    (runScript goodWorld (.error ())).exitCode = 2 := ⟨rfl, rfl⟩

/-- C2 (amended): exit code 0 exactly on a fully successful run, 1 exactly
when fetch/extraction raised after successful parsing, and 2 exactly when
the capability failed to load or argument parsing failed. -/
theorem C2_exit_codes (w : World) (p : Except Unit Args) :
    ((runScript w p).exitCode = 0 ↔
      w.capability = Except.ok () ∧
        ∃ a pl, p = Except.ok a ∧ tryMain w a = Except.ok pl) ∧
    ((runScript w p).exitCode = 1 ↔
      w.capability = Except.ok () ∧
        ∃ a e, p = Except.ok a ∧ tryMain w a = Except.error e) ∧
    ((runScript w p).exitCode = 2 ↔
      (∃ e, w.capability = Except.error e) ∨
        (w.capability = Except.ok () ∧ p = Except.error ())) := by
  cases hc : w.capability with
  | error e => simp [runScript, hc]
  | ok u =>
    cases u
    cases p with
    | error v => cases v; simp [runScript, hc]
    | ok a =>
      cases ht : tryMain w a with
      | ok pl => simp [runScript, runMain, hc, ht]
      | error e => simp [runScript, runMain, hc, ht]

/-- C3 (counterexample): supplying `--selector ""` (an empty string) does
not produce the selector fields — Python's `if args.selector:` treats the
empty string as falsy, so the preview branch runs instead. -/
theorem C3_counterexample :
    (runScript goodWorld (.ok emptySelArgs)).exitCode = 0 ∧
    outKey (runScript goodWorld (.ok emptySelArgs)) "selector" = none ∧
    outKey (runScript goodWorld (.ok emptySelArgs)) "count" = none ∧
    outKey (runScript goodWorld (.ok emptySelArgs)) "items" = none ∧
    outKey (runScript goodWorld (.ok emptySelArgs)) "text_preview" =
      some (.str "Example text".data) := ⟨rfl, rfl, rfl, rfl, rfl⟩

/-- C3 (amended): when a NON-EMPTY `--selector` is supplied and the fetch,
the selector query and the first-20 text reads all succeed, the output has
the `selector`, `count` and `items` keys and no `text_preview`. -/
theorem C3_selector_keys (w : World) (a : Args) (page : Page) (sel : List Char)
    (nodes : List ExNode) (texts : List (List Char))
    (hcap : w.capability = Except.ok ())
    (hsel : a.selector = some sel) (hne : sel ≠ [])
    (hfetch : w.fetch a.timeout a.url = Except.ok page)
    (hcss : page.css sel = Except.ok nodes)
    (hreads : mapExcept ExNode.textRead (nodes.take 20) = Except.ok texts) :
    (runScript w (.ok a)).exitCode = 0 ∧
    outKey (runScript w (.ok a)) "selector" = some (.str sel) ∧
    outKey (runScript w (.ok a)) "count" = some (.num nodes.length) ∧
    outKey (runScript w (.ok a)) "items" =
      some (.arr (texts.map fun t => JVal.str (pyStrip t))) ∧
    outKey (runScript w (.ok a)) "text_preview" = none := by
  have htruthy : selTruthy a.selector = true := by
    rw [hsel]
    cases sel with
    | nil => exact absurd rfl hne
    | cons c cs => rfl
  have hgetD : a.selector.getD [] = sel := by rw [hsel]; rfl
  simp [runScript, hcap, runMain, tryMain, hfetch, htruthy, hgetD,
        selectorBranch, hcss, hreads, outKey, lookupKey]

/-- C3 (witness): the amended theorem at a concrete run with selector
`h1` matching one node. -/
theorem C3_selector_keys_witness :
    (runScript goodWorld (.ok selArgs)).exitCode = 0 ∧
    outKey (runScript goodWorld (.ok selArgs)) "selector" =
      some (.str "h1".data) ∧
    outKey (runScript goodWorld (.ok selArgs)) "count" = some (.num 1) ∧
    outKey (runScript goodWorld (.ok selArgs)) "items" =
      some (.arr [JVal.str "Example Domain".data]) ∧
    outKey (runScript goodWorld (.ok selArgs)) "text_preview" = none := by
  exact C3_selector_keys goodWorld selArgs examplePage "h1".data [exampleNode]
    ["Example Domain".data] rfl rfl (by decide) rfl rfl rfl

/-- C5: when the selector query runs and succeeds (and the first-20 text
reads succeed), `count` is the total number of matches, `items` is the
trimmed text of the first 20 matches in order, and
`len(items) = min(count, 20)`. -/
theorem C5_count_items (w : World) (a : Args) (page : Page)
    (nodes : List ExNode) (texts : List (List Char))
    (hcap : w.capability = Except.ok ())
    (hsel : selTruthy a.selector = true)
    (hfetch : w.fetch a.timeout a.url = Except.ok page)
    (hcss : page.css (a.selector.getD []) = Except.ok nodes)
    (hreads : mapExcept ExNode.textRead (nodes.take 20) = Except.ok texts) :
    (runScript w (.ok a)).exitCode = 0 ∧
    outKey (runScript w (.ok a)) "count" = some (.num nodes.length) ∧
    outKey (runScript w (.ok a)) "items" =
      some (.arr (texts.map fun t => JVal.str (pyStrip t))) ∧
    (texts.map fun t => JVal.str (pyStrip t)).length = min nodes.length 20 := by
  refine ⟨?_, ?_, ?_, ?_⟩
  · simp [runScript, hcap, runMain, tryMain, hfetch, hsel, selectorBranch,
          hcss, hreads]
  · simp [runScript, hcap, runMain, tryMain, hfetch, hsel, selectorBranch,
          hcss, hreads, outKey, lookupKey]
  · simp [runScript, hcap, runMain, tryMain, hfetch, hsel, selectorBranch,
          hcss, hreads, outKey, lookupKey]
  · rw [List.length_map, mapExcept_ok_length hreads, List.length_take,
        Nat.min_comm]

/-- C5 (witness): the theorem at a concrete page with 25 matches, where
`count` is 25 and `items` holds the first 20 trimmed texts. -/
theorem C5_count_items_witness :
    (runScript manyWorld (.ok selArgs)).exitCode = 0 ∧
    outKey (runScript manyWorld (.ok selArgs)) "count" = some (.num 25) ∧
    outKey (runScript manyWorld (.ok selArgs)) "items" =
      some (.arr (((List.replicate 20 "Example Domain".data).map
        fun t => JVal.str (pyStrip t)))) ∧
    ((List.replicate 20 "Example Domain".data).map
      fun t => JVal.str (pyStrip t)).length = min 25 20 := by
  exact C5_count_items manyWorld selArgs manyPage (List.replicate 25 exampleNode)
    (List.replicate 20 "Example Domain".data) rfl rfl rfl rfl rfl

/-- C4 (counterexample): `text.strip()[:1000]` strips before truncating,
so when the trimmed text is longer than 1000 characters the preview can
end in whitespace: with trimmed text `'a' * 999 + " bb"`, the preview is
`'a' * 999 + " "`, whose last character is a space. -/
theorem C4_counterexample :
    outKey (runScript truncWorld (.ok baseArgs)) "text_preview" =
      some (.str (List.replicate 999 'a' ++ [' '])) ∧
    (List.replicate 999 'a' ++ [' ']).getLast? = some ' ' ∧
    Char.isWhitespace ' ' = true := ⟨rfl, by simp, rfl⟩

/-- C4 (amended): on a successful run without a (truthy) selector,
`text_preview` is the first 1000 characters of the trimmed document text
(empty when the accessor yields nothing), so it has length at most 1000
and no leading whitespace; trailing whitespace can remain when the
trimmed text was truncated. -/
theorem C4_preview (w : World) (a : Args) (page : Page)
    (hcap : w.capability = Except.ok ())
    (hsel : selTruthy a.selector = false)
    (hfetch : w.fetch a.timeout a.url = Except.ok page) :
    (runScript w (.ok a)).exitCode = 0 ∧
    outKey (runScript w (.ok a)) "text_preview" =
      some (.str ((pyStrip (page.text.getD [])).take 1000)) ∧
    ((pyStrip (page.text.getD [])).take 1000).length ≤ 1000 ∧
    (∀ c, ((pyStrip (page.text.getD [])).take 1000).head? = some c →
      c.isWhitespace = false) := by
  refine ⟨?_, ?_, ?_, ?_⟩
  · simp [runScript, hcap, runMain, tryMain, hfetch, hsel]
  · simp [runScript, hcap, runMain, tryMain, hfetch, hsel, previewBranch,
          outKey, lookupKey]
  · rw [List.length_take]
    exact min_le_left _ _
  · intro c hc
    exact head?_pyStrip_not_ws (head?_take hc)

/-- C4 (witness): the amended theorem at a concrete run whose page text is
`"  Example text  "`, previewed as `"Example text"`. -/
theorem C4_preview_witness :
    (runScript goodWorld (.ok baseArgs)).exitCode = 0 ∧
    outKey (runScript goodWorld (.ok baseArgs)) "text_preview" =
      some (.str ((pyStrip (examplePage.text.getD [])).take 1000)) ∧
    ((pyStrip (examplePage.text.getD [])).take 1000).length ≤ 1000 ∧
    (∀ c, ((pyStrip (examplePage.text.getD [])).take 1000).head? = some c →
      c.isWhitespace = false) := by
  exact C4_preview goodWorld baseArgs examplePage rfl rfl rfl

/-- C6 (counterexample): the error string is `str(e)`, which is empty for
an exception with an empty message, so the emitted `error` field can be
the empty string. -/
theorem C6_counterexample :
    (runScript emptyErrWorld (.ok baseArgs)).exitCode = 1 ∧
    outKey (runScript emptyErrWorld (.ok baseArgs)) "error" =
      some (.str []) := ⟨rfl, rfl⟩

/-- C6 (amended): any exception raised during fetch or extraction yields
exactly the object `{ok: false, error: <message>, url: <input url>}` (the
message may be empty) and exit code 1. -/
theorem C6_error_payload (w : World) (a : Args) (e : List Char)
    (hcap : w.capability = Except.ok ())
    (htry : tryMain w a = Except.error e) :
    runScript w (.ok a) =
      ⟨some [("ok", .bool false), ("error", .str e), ("url", .str a.url)],
       1⟩ := by
  simp [runScript, hcap, runMain, htry]

/-- C6 (witness): the amended theorem at a run whose fetch raises
`connection refused`. -/
theorem C6_error_payload_witness :
    runScript netFailWorld (.ok baseArgs) =
      ⟨some [("ok", .bool false), ("error", .str "connection refused".data),
             ("url", .str "https://example.com".data)], 1⟩ := by
  exact C6_error_payload netFailWorld baseArgs "connection refused".data rfl rfl

/-- C7 (counterexample): the import-guard failure JSON (line 9) has no
`url` field, so not every printed object echoes the URL. -/
theorem C7_counterexample :
    ((runScript badCapWorld (.ok baseArgs)).stdout).isSome = true ∧
    outKey (runScript badCapWorld (.ok baseArgs)) "url" = none := ⟨rfl, rfl⟩

/-- C7 (amended): once the capability loaded and arguments parsed, the
printed object always carries `url` equal to the input URL — on success
and on the fetch/extraction error path alike.  The capability-failure
object omits `url`, and a parse failure prints no JSON at all. -/
theorem C7_url_echoed (w : World) (a : Args)
    (hcap : w.capability = Except.ok ()) :
    outKey (runScript w (.ok a)) "url" = some (.str a.url) := by
  cases hf : w.fetch a.timeout a.url with
  | error e =>
    simp [runScript, hcap, runMain, tryMain, hf, outKey, lookupKey]
  | ok page =>
    cases hs : selTruthy a.selector with
    | false =>
      simp [runScript, hcap, runMain, tryMain, hf, hs, outKey, lookupKey]
    | true =>
      cases hb : selectorBranch page (a.selector.getD []) with
      | error e =>
        simp [runScript, hcap, runMain, tryMain, hf, hs, hb, outKey, lookupKey]
      | ok tail =>
        simp [runScript, hcap, runMain, tryMain, hf, hs, hb, outKey, lookupKey]

/-- C7 (witness): the amended theorem at a concrete successful run. -/
theorem C7_url_echoed_witness :
    outKey (runScript goodWorld (.ok baseArgs)) "url" =
      some (.str "https://example.com".data) := by
  exact C7_url_echoed goodWorld baseArgs rfl

/-- C8 (counterexample): the claim is not universal — on a run where the
fetch succeeds, the title node's text read raises, AND a non-empty
selector is supplied whose query raises at line 36, the outer `except`
aborts the run: the error payload is printed (no `title` field at all)
and the exit code is 1.  The last conjunct records that the title text
read really raises on this page. -/
theorem C8_counterexample :
    (runScript selFailWorld (.ok selArgs)).exitCode = 1 ∧
    outKey (runScript selFailWorld (.ok selArgs)) "ok" =
      some (.bool false) ∧
    outKey (runScript selFailWorld (.ok selArgs)) "title" = none ∧
    selFailPage.css "title".data =
      Except.ok [⟨Except.error "boom".data⟩] := ⟨rfl, rfl, rfl, rfl⟩

/-- C8 (amended): the title-read failure itself is never fatal — when the
fetch succeeds, the title node's text read raises, and the remaining
extraction does not raise (no truthy selector, or the selector branch
succeeds), the inner `try` swallows the failure: `title` is null, `ok` is
true, the rest of the payload (`text_preview`, or the selector fields) is
still produced, and the exit code is 0. -/
theorem C8_title_failure_not_fatal (w : World) (a : Args) (page : Page)
    (n : ExNode) (ns : List ExNode) (m : List Char)
    (hcap : w.capability = Except.ok ())
    (hfetch : w.fetch a.timeout a.url = Except.ok page)
    (hcss : page.css "title".data = Except.ok (n :: ns))
    (hread : n.textRead = Except.error m)
    (hrest : selTruthy a.selector = false ∨
      ∃ tail, selectorBranch page (a.selector.getD []) = Except.ok tail) :
    (runScript w (.ok a)).exitCode = 0 ∧
    outKey (runScript w (.ok a)) "ok" = some (.bool true) ∧
    outKey (runScript w (.ok a)) "title" = some .null ∧
    (outKey (runScript w (.ok a)) "text_preview" ≠ none ∨
     outKey (runScript w (.ok a)) "items" ≠ none) := by
  have htitle : extractTitle page = none := by
    simp [extractTitle, hcss, hread]
  cases hs : selTruthy a.selector with
  | false =>
    refine ⟨?_, ?_, ?_, Or.inl ?_⟩ <;>
      simp [runScript, hcap, runMain, tryMain, hfetch, hs, htitle,
            jsonOfTitle, previewBranch, outKey, lookupKey]
  | true =>
    obtain ⟨tail, hb⟩ := hrest.resolve_left (by simp [hs])
    cases hcssb : page.css (a.selector.getD []) with
    | error e => simp [selectorBranch, hcssb] at hb
    | ok nodes =>
      cases hm : mapExcept ExNode.textRead (nodes.take 20) with
      | error e => simp [selectorBranch, hcssb, hm] at hb
      | ok texts =>
        refine ⟨?_, ?_, ?_, Or.inr ?_⟩ <;>
          simp [runScript, hcap, runMain, tryMain, hfetch, hs, htitle,
                jsonOfTitle, selectorBranch, hcssb, hm, outKey, lookupKey]

/-- C8 (witness): the amended theorem at a concrete run whose only title
node raises on text read; the preview is still emitted and the run
exits 0. -/
theorem C8_title_failure_not_fatal_witness :
    (runScript titleFailWorld (.ok baseArgs)).exitCode = 0 ∧
    outKey (runScript titleFailWorld (.ok baseArgs)) "ok" =
      some (.bool true) ∧
    outKey (runScript titleFailWorld (.ok baseArgs)) "title" = some .null ∧
    (outKey (runScript titleFailWorld (.ok baseArgs)) "text_preview" ≠ none ∨
     outKey (runScript titleFailWorld (.ok baseArgs)) "items" ≠ none) := by
  exact C8_title_failure_not_fatal titleFailWorld baseArgs titleFailPage
    ⟨Except.error "boom".data⟩ [] "boom".data rfl rfl rfl rfl (Or.inl rfl)

/-- C9: whenever the capability import fails, the program prints exactly
`{ok: false, error: "scrapling_import_failed: <details>"}` and exits 2,
whatever the argument-parsing outcome would have been (the guard runs
before parsing). -/
theorem C9_import_guard (w : World) (e : List Char) (p : Except Unit Args)
    (h : w.capability = Except.error e) :
    runScript w p =
      ⟨some [("ok", .bool false),
             ("error", .str ("scrapling_import_failed: ".data ++ e))],
       2⟩ := by
  simp [runScript, h, importFailPayload]

/-- C9 (witness): the theorem at a concrete import failure, with the
parse outcome irrelevant. -/
theorem C9_import_guard_witness :
    runScript badCapWorld (.error ()) =
      ⟨some [("ok", .bool false),
             ("error",
              .str "scrapling_import_failed: No module named scrapling".data)],
       2⟩ := by
  exact C9_import_guard badCapWorld "No module named scrapling".data
    (.error ()) rfl

/-- C10: `--selector ""` is falsy, so the whole run is identical to the
run without a selector; on a successful fetch the output has
`text_preview` and none of `selector`, `count`, `items`. -/
theorem C10_empty_selector (w : World) (url : List Char) (t : Int)
    (page : Page)
    (hcap : w.capability = Except.ok ())
    (hfetch : w.fetch t url = Except.ok page) :
    runScript w (.ok ⟨url, some [], t⟩) = runScript w (.ok ⟨url, none, t⟩) ∧
    (runScript w (.ok ⟨url, some [], t⟩)).exitCode = 0 ∧
    outKey (runScript w (.ok ⟨url, some [], t⟩)) "text_preview" ≠ none ∧
    outKey (runScript w (.ok ⟨url, some [], t⟩)) "selector" = none ∧
    outKey (runScript w (.ok ⟨url, some [], t⟩)) "count" = none ∧
    outKey (runScript w (.ok ⟨url, some [], t⟩)) "items" = none := by
  refine ⟨?_, ?_, ?_, ?_, ?_, ?_⟩ <;>
    simp [runScript, hcap, runMain, tryMain, hfetch, selTruthy,
          previewBranch, outKey, lookupKey]

/-- C10 (witness): the theorem at a concrete successful run with
`--selector ""`. -/
theorem C10_empty_selector_witness :
    runScript goodWorld (.ok ⟨"https://example.com".data, some [], 20⟩) =
      runScript goodWorld (.ok ⟨"https://example.com".data, none, 20⟩) ∧
    (runScript goodWorld
      (.ok ⟨"https://example.com".data, some [], 20⟩)).exitCode = 0 ∧
    outKey (runScript goodWorld
      (.ok ⟨"https://example.com".data, some [], 20⟩)) "text_preview" ≠ none ∧
    outKey (runScript goodWorld
      (.ok ⟨"https://example.com".data, some [], 20⟩)) "selector" = none ∧
    outKey (runScript goodWorld
      (.ok ⟨"https://example.com".data, some [], 20⟩)) "count" = none ∧
    outKey (runScript goodWorld
      (.ok ⟨"https://example.com".data, some [], 20⟩)) "items" = none := by
  exact C10_empty_selector goodWorld "https://example.com".data 20
    examplePage rfl rfl

end Scrape
